import Mathlib

/-!
# PatentSentry — Patent Term & Fee Calculation Engine, verified model

Shallow embedding of the calculation core of `src/backend/ps.py`
(`calculate_expiry`, `calculate_design_patent_expiry`,
`calculate_maintenance_fees` together with its inline `add_years_months`),
plus the date primitives those functions use from the Python standard
library and `dateutil` (`datetime.strptime` with the `"%Y-%m-%d"` format,
`calendar.monthrange`, `datetime + timedelta(days=n)`,
`datetime + relativedelta(years=y)`, and `datetime` comparison).

Dates are modelled with unbounded integer fields; the `year ≤ 9999` upper
bound that Python's `datetime` enforces when a date object is constructed
is modelled in the string-level wrappers, which return `none` exactly where
the Python code raises.  All inputs in the claims are calendar dates at
midnight (`strptime` of a day-precision string), so `datetime` comparison
is lexicographic on (year, month, day) plus a time-of-day component for
the evaluation instant `now`.
-/

namespace PatentSentry

/-- A calendar date, as carried by a Python `datetime` at midnight.
Fields are unbounded integers; validity is a separate predicate. -/
structure Date where
  year : Int
  month : Int
  day : Int
deriving DecidableEq, Repr

/-- `is_leap_year` from `src/backend/ps.py` (the standard Gregorian rule,
also the rule used by `calendar.monthrange` and `dateutil`).  Python's `%`
on ints with the positive divisor coincides with `Int.emod` (`%`). -/
def is_leap_year (year : Int) : Bool :=
  (year % 4 == 0 && year % 100 != 0) || (year % 400 == 0)

/-- `calendar.monthrange(year, month)[1]`: the number of days of the month,
for `1 ≤ month ≤ 12`. -/
def daysInMonth (year month : Int) : Int :=
  if month = 2 then (if is_leap_year year then 29 else 28)
  else if month = 4 ∨ month = 6 ∨ month = 9 ∨ month = 11 then 30
  else 31

/-- The dates representable by a Python `datetime.date` whose statutory
terms the engine manipulates (`datetime.MINYEAR = 1`). -/
def Date.Valid (d : Date) : Prop :=
  1 ≤ d.year ∧ 1 ≤ d.month ∧ d.month ≤ 12 ∧ 1 ≤ d.day ∧
    d.day ≤ daysInMonth d.year d.month

instance (d : Date) : Decidable d.Valid := by
  unfold Date.Valid; infer_instance

/-- Python `datetime <` between two midnight dates: lexicographic on
(year, month, day). -/
def Date.ltP (a b : Date) : Prop :=
  a.year < b.year ∨
    (a.year = b.year ∧
      (a.month < b.month ∨ (a.month = b.month ∧ a.day < b.day)))

instance (a b : Date) : Decidable (Date.ltP a b) := by
  unfold Date.ltP; infer_instance

/-- Python `datetime >=`: the order is total, so `a >= b` is `¬ (a < b)`. -/
def Date.geP (a b : Date) : Prop := ¬ Date.ltP a b

instance (a b : Date) : Decidable (Date.geP a b) := by
  unfold Date.geP; infer_instance

/-- An evaluation instant: a calendar date plus a time-of-day component
(`datetime.now()` carries hours/minutes/seconds/microseconds; `tod` stands
for that whole intra-day part, any unit). -/
structure Instant where
  date : Date
  tod : Nat
deriving DecidableEq, Repr

/-- Python `datetime <` between a full instant and another: lexicographic
on (year, month, day, time-of-day). -/
def Instant.ltP (a b : Instant) : Prop :=
  Date.ltP a.date b.date ∨
    (a.date.year = b.date.year ∧ a.date.month = b.date.month ∧
      a.date.day = b.date.day ∧ a.tod < b.tod)

instance (a b : Instant) : Decidable (Instant.ltP a b) := by
  unfold Instant.ltP; infer_instance

/-- `a <= b` on instants (total order): `¬ (b < a)`. -/
def Instant.leP (a b : Instant) : Prop := ¬ Instant.ltP b a

instance (a b : Instant) : Decidable (Instant.leP a b) := by
  unfold Instant.leP; infer_instance

/-- The instant at 00:00:00 of a date — what `strptime` of a plain date
string produces, and the instant at which an expiry date is compared. -/
def midnight (d : Date) : Instant := ⟨d, 0⟩

/-- `d + relativedelta(years=y)` (dateutil): add `y` to the year, keep the
month, clamp the day to the last valid day of the resulting month. -/
def relativedeltaYears (d : Date) (y : Int) : Date :=
  ⟨d.year + y, d.month, min d.day (daysInMonth (d.year + y) d.month)⟩

/-- `d + timedelta(days=1)` on a valid date. -/
def nextDay (d : Date) : Date :=
  if d.day < daysInMonth d.year d.month then ⟨d.year, d.month, d.day + 1⟩
  else if d.month < 12 then ⟨d.year, d.month + 1, 1⟩
  else ⟨d.year + 1, 1, 1⟩

/-- `d + timedelta(days=n)` for `n ≥ 0` (PTA/PTE day counts are
non-negative in the data model). -/
def addDays (d : Date) (n : Nat) : Date := Nat.iterate nextDay n d

/-- The record returned by `calculate_expiry` and
`calculate_design_patent_expiry` in `src/backend/ps.py`.  The source
formats the date fields through `strftime("%Y-%m-%d")`; they are kept as
dates here. -/
structure ExpiryResult where
  expiry : Date
  reason : String
  is_active : Bool
  baseline_expiry : Date
  pta_days : Nat
  pte_days : Nat
  calculated_expiry : Date
deriving DecidableEq, Repr

/-- Core of `calculate_expiry` (`src/backend/ps.py` lines 130-164) after
the two `strptime` calls: the 20-year baseline, PTA/PTE day adjustment,
reason accumulation, terminal-disclaimer override, and the `is_active`
comparison against `now`.  `pta_days`/`pte_days` are the non-negative day
counts of the data model, so Python's `int(x or 0)` is `x` and the
truthiness test `if pta_days:` is `pta_days ≠ 0`. -/
def calculateExpiryD (filing : Date) (pta_days pte_days : Nat)
    (td : Option Date) (now : Instant) : ExpiryResult :=
  let baseline := relativedeltaYears filing 20
  let total_adjustment := pta_days + pte_days
  let adjusted_date := addDays baseline total_adjustment
  let reason0 := "20 years from filing"
  let reason1 :=
    if pta_days ≠ 0 then reason0 ++ " + " ++ toString pta_days ++ " days PTA"
    else reason0
  let reason2 :=
    if pte_days ≠ 0 then reason1 ++ " + " ++ toString pte_days ++ " days PTE"
    else reason1
  let fr : Date × String :=
    match td with
    | some td_date =>
        if Date.ltP td_date adjusted_date then
          (td_date, "Terminal Disclaimer (expires with linked patent)")
        else (adjusted_date, reason2)
    | none => (adjusted_date, reason2)
  { expiry := fr.1
    reason := fr.2
    is_active := decide (Instant.ltP now (midnight fr.1))
    baseline_expiry := baseline
    pta_days := pta_days
    pte_days := pte_days
    calculated_expiry := fr.1 }

/-- The America Invents Act transition date hard-coded at
`src/backend/ps.py` line 180. -/
def cutoffDate : Date := ⟨2015, 5, 13⟩

/-- Core of `calculate_design_patent_expiry` (`src/backend/ps.py` lines
170-196) after the `strptime` calls: 15-year term when
`filing_date >= cutoff_date`, else 14-year term, added to the grant date. -/
def calculateDesignExpiryD (grant filing : Date) (now : Instant) :
    ExpiryResult :=
  let years_to_add : Int := if Date.geP filing cutoffDate then 15 else 14
  let baseline := relativedeltaYears grant years_to_add
  { expiry := baseline
    reason := toString years_to_add ++ " years from grant date"
    is_active := decide (Instant.ltP now (midnight baseline))
    baseline_expiry := baseline
    pta_days := 0
    pte_days := 0
    calculated_expiry := baseline }

/-- The inline `add_years_months` of `calculate_maintenance_fees`
(`src/backend/ps.py` lines 202-208).  Python's `//` and `%` on ints with
the positive divisor `12` coincide with `Int.ediv`/`Int.emod`
(Lean's `/` and `%` on `Int`). -/
def add_years_months (date : Date) (years : Int) (months : Int) : Date :=
  let new_month0 := date.month + months
  let new_year := date.year + years + (new_month0 - 1) / 12
  let new_month := (new_month0 - 1) % 12 + 1
  let last_day := daysInMonth new_year new_month
  ⟨new_year, new_month, min date.day last_day⟩

/-- One maintenance-fee window as returned by the inline `fee_schedule`
(`src/backend/ps.py` lines 214-220). -/
structure FeeWindow where
  due_date : Date
  window_start : Date
  window_end : Date
  surcharge_end : Date
deriving DecidableEq, Repr

/-- The inline `fee_schedule` of `calculate_maintenance_fees`. -/
def fee_schedule (due_date : Date) : FeeWindow :=
  { due_date := due_date
    window_start := add_years_months due_date 0 (-6)
    window_end := due_date
    surcharge_end := add_years_months due_date 0 6 }

/-- The three statutory fee windows returned by
`calculate_maintenance_fees`. -/
structure MaintenanceFees where
  year_3_5 : FeeWindow
  year_7_5 : FeeWindow
  year_11_5 : FeeWindow
deriving DecidableEq, Repr

/-- Core of `calculate_maintenance_fees` (`src/backend/ps.py` lines
198-226) after the `strptime` call. -/
def calculateMaintenanceFeesD (grant : Date) : MaintenanceFees :=
  { year_3_5 := fee_schedule (add_years_months grant 3 6)
    year_7_5 := fee_schedule (add_years_months grant 7 6)
    year_11_5 := fee_schedule (add_years_months grant 11 6) }

/-- Numeric value of a list of ASCII digit characters. -/
def digitsToNat (l : List Char) : Nat :=
  l.foldl (fun a c => a * 10 + (c.toNat - 48)) 0

/-- `datetime.strptime(s, "%Y-%m-%d")`, modelled over ASCII digit strings
from CPython's `_strptime` regular expressions: `%Y` matches exactly four
digits, `%m` matches one or two digits with value 1..12, `%d` matches one
or two digits with value 1..31, nothing may remain after the day
("unconverted data remains"), and the `datetime` constructor then rejects
`year < 1` (`MINYEAR`) and a day beyond the length of the month.  A
four-digit year is at most 9999, so `MAXYEAR` cannot be violated here. -/
def strptimeYMD (s : String) : Option Date :=
  match s.toList with
  | c1 :: c2 :: c3 :: c4 :: '-' :: rest =>
    if c1.isDigit && c2.isDigit && c3.isDigit && c4.isDigit then
      let y : Int := (digitsToNat [c1, c2, c3, c4] : Nat)
      let mcs := rest.takeWhile Char.isDigit
      let rest2 := rest.dropWhile Char.isDigit
      if mcs.length = 0 ∨ 2 < mcs.length then none
      else
        let m : Int := (digitsToNat mcs : Nat)
        match rest2 with
        | '-' :: rest3 =>
          let dcs := rest3.takeWhile Char.isDigit
          let rest4 := rest3.dropWhile Char.isDigit
          if dcs.length = 0 ∨ 2 < dcs.length then none
          else
            let d : Int := (digitsToNat dcs : Nat)
            if rest4 = [] ∧ 1 ≤ y ∧ 1 ≤ m ∧ m ≤ 12 ∧ 1 ≤ d ∧
                d ≤ daysInMonth y m then
              some ⟨y, m, d⟩
            else none
        | _ => none
    else none
  | _ => none

/-- `calculate_expiry` at its string boundary (`src/backend/ps.py` lines
130-164).  `none` models the `ValueError` raise sites of the Python code,
in source order: `strptime` of the filing date, the `datetime` construction
inside `filing_date + relativedelta(years=20)` when the year would exceed
`MAXYEAR = 9999`, the `baseline + timedelta(...)` overflow past
9999-12-31, and — only when a non-empty terminal-disclaimer string is
supplied (`if td_date_str:` is a truthiness test, so `""` behaves like
`None`) — `strptime` of that string. -/
def calculate_expiry (filing_str : String) (pta_days pte_days : Nat)
    (td_date_str : Option String) (now : Instant) : Option ExpiryResult :=
  match strptimeYMD filing_str with
  | none => none
  | some filing =>
    if 9999 < (relativedeltaYears filing 20).year then none
    else if 9999 < (addDays (relativedeltaYears filing 20)
        (pta_days + pte_days)).year then none
    else
      match td_date_str with
      | none => some (calculateExpiryD filing pta_days pte_days none now)
      | some ts =>
        if ts.isEmpty then
          some (calculateExpiryD filing pta_days pte_days none now)
        else
          match strptimeYMD ts with
          | none => none
          | some td =>
            some (calculateExpiryD filing pta_days pte_days (some td) now)

/-- `calculate_design_patent_expiry` at its string boundary
(`src/backend/ps.py` lines 170-196): both dates are parsed, then the
baseline construction raises past `MAXYEAR`. -/
def calculate_design_patent_expiry (grant_date_str filing_date_str : String)
    (now : Instant) : Option ExpiryResult :=
  match strptimeYMD grant_date_str with
  | none => none
  | some grant =>
    match strptimeYMD filing_date_str with
    | none => none
    | some filing =>
      if 9999 <
          (relativedeltaYears grant
            (if Date.geP filing cutoffDate then 15 else 14)).year then none
      else some (calculateDesignExpiryD grant filing now)

/-- `calculate_maintenance_fees` at its string boundary (`src/backend/ps.py`
lines 198-226).  Python raises inside `date.replace` of whichever
constructed date first leaves `1..9999`; the largest of the nine
constructed dates is the 11.5-year surcharge end (grant + 12 calendar
years) and the smallest is at least grant + 3 years, so with a parsed
grant (`year ≥ 1`) the single guard on the largest date is equivalent. -/
def calculate_maintenance_fees (grant_date_str : String) :
    Option MaintenanceFees :=
  match strptimeYMD grant_date_str with
  | none => none
  | some grant =>
    if 9999 < (add_years_months (add_years_months grant 11 6) 0 6).year then
      none
    else some (calculateMaintenanceFeesD grant)

/-- Month-granular index of a date: months elapsed since the calendar
origin.  Two dates with months in `1..12` are equal iff their
`monthIndex` and `day` agree. -/
def monthIndex (d : Date) : Int := 12 * d.year + d.month - 1

/-- Everything `calculate_expiry` returns except the clock-dependent
`is_active` flag. -/
def coreFields (r : ExpiryResult) : Date × String × Date × Nat × Nat × Date :=
  (r.expiry, r.reason, r.baseline_expiry, r.pta_days, r.pte_days,
    r.calculated_expiry)

/-- Characterization of a fee window emitted for `base` at a milestone
`offsetMonths` calendar months after it, phrased independently of
`add_years_months`: each produced date is pinned down by its month index
(capturing year-carry and year-borrow normalization), its month being a
real month, and its day being the source day clamped to the target
month's last valid day. -/
def FeeWindowSpec (base : Date) (offsetMonths : Int) (w : FeeWindow) : Prop :=
  monthIndex w.due_date = monthIndex base + offsetMonths ∧
  1 ≤ w.due_date.month ∧ w.due_date.month ≤ 12 ∧
  w.due_date.day =
    min base.day (daysInMonth w.due_date.year w.due_date.month) ∧
  w.window_end = w.due_date ∧
  monthIndex w.window_start = monthIndex w.due_date - 6 ∧
  1 ≤ w.window_start.month ∧ w.window_start.month ≤ 12 ∧
  w.window_start.day =
    min w.due_date.day (daysInMonth w.window_start.year w.window_start.month) ∧
  monthIndex w.surcharge_end = monthIndex w.due_date + 6 ∧
  1 ≤ w.surcharge_end.month ∧ w.surcharge_end.month ≤ 12 ∧
  w.surcharge_end.day =
    min w.due_date.day (daysInMonth w.surcharge_end.year w.surcharge_end.month)

/-- `add_years_months` shifts the month index by `12 * years + months`,
lands on a real month, and clamps the day. -/
theorem add_years_months_spec (d : Date) (y mo : Int) :
    monthIndex (add_years_months d y mo) = monthIndex d + 12 * y + mo ∧
    1 ≤ (add_years_months d y mo).month ∧
    (add_years_months d y mo).month ≤ 12 ∧
    (add_years_months d y mo).day =
      min d.day
        (daysInMonth (add_years_months d y mo).year
          (add_years_months d y mo).month) := by
  simp only [add_years_months, monthIndex]
  refine ⟨by omega, by omega, by omega, trivial⟩

/-- Stepping one day forward never decreases the year. -/
theorem nextDay_year_mono (d : Date) : d.year ≤ (nextDay d).year := by
  unfold nextDay
  split_ifs
  · show d.year ≤ d.year; omega
  · show d.year ≤ d.year; omega
  · show d.year ≤ d.year + 1; omega

/-- Adding days never decreases the year. -/
theorem addDays_year_mono (d : Date) (n : Nat) :
    d.year ≤ (addDays d n).year := by
  induction n generalizing d with
  | zero => exact le_refl _
  | succ n ih =>
    calc d.year ≤ (nextDay d).year := nextDay_year_mono d
    _ ≤ (addDays (nextDay d) n).year := ih (nextDay d)
    _ = (addDays d (n + 1)).year := by
        unfold addDays
        rw [Function.iterate_succ_apply]

/-- No instant is strictly before itself. -/
theorem Instant.ltP_irrefl (a : Instant) : ¬ Instant.ltP a a := by
  unfold Instant.ltP Date.ltP
  omega

/-- If `a` is not after `b` and `b` is strictly before `c`, then `a` is
strictly before `c` (the instant order is total and transitive). -/
theorem Instant.ltP_of_leP_of_ltP {a b c : Instant} (hab : Instant.leP a b)
    (hbc : Instant.ltP b c) : Instant.ltP a c := by
  unfold Instant.leP Instant.ltP Date.ltP at *
  omega

/-- The non-`is_active` fields of the utility/plant result do not depend
on the evaluation instant. -/
theorem calculateExpiryD_coreFields_now (filing : Date) (pta pte : Nat)
    (td : Option Date) (n1 n2 : Instant) :
    coreFields (calculateExpiryD filing pta pte td n1) =
      coreFields (calculateExpiryD filing pta pte td n2) := rfl

/-- The non-`is_active` fields of the design-patent result do not depend
on the evaluation instant. -/
theorem calculateDesignExpiryD_coreFields_now (grant filing : Date)
    (n1 n2 : Instant) :
    coreFields (calculateDesignExpiryD grant filing n1) =
      coreFields (calculateDesignExpiryD grant filing n2) := rfl

/-- For months other than February the month length does not depend on
the year. -/
theorem daysInMonth_ne_two (y1 y2 m : Int) (h : m ≠ 2) :
    daysInMonth y1 m = daysInMonth y2 m := by
  unfold daysInMonth
  rw [if_neg h, if_neg h]

/-- February's length by leap status. -/
theorem daysInMonth_two (y : Int) :
    daysInMonth y 2 = if is_leap_year y then 29 else 28 := by
  unfold daysInMonth
  rw [if_pos rfl]

/-- C1: with `pta_days = pte_days = 0` and no terminal-disclaimer date,
`calculate_expiry`'s `baseline_expiry` (and `calculated_expiry`, and
`expiry`) lies exactly 20 calendar years after the filing date, with month
and day preserved, except that a Feb-29 filing whose +20-year target year
is non-leap clamps the day down to 28. -/
theorem utility_baseline_is_twenty_calendar_years (f : Date) (hv : f.Valid)
    (now : Instant) :
    (calculateExpiryD f 0 0 none now).baseline_expiry =
      (calculateExpiryD f 0 0 none now).calculated_expiry ∧
    (calculateExpiryD f 0 0 none now).calculated_expiry =
      (calculateExpiryD f 0 0 none now).expiry ∧
    (calculateExpiryD f 0 0 none now).baseline_expiry.year = f.year + 20 ∧
    (calculateExpiryD f 0 0 none now).baseline_expiry.month = f.month ∧
    (calculateExpiryD f 0 0 none now).baseline_expiry.day =
      (if f.month = 2 ∧ f.day = 29 ∧ is_leap_year (f.year + 20) = false
       then 28 else f.day) := by
  obtain ⟨hy, hm1, hm2, hd1, hd2⟩ := hv
  refine ⟨rfl, rfl, rfl, rfl, ?_⟩
  show min f.day (daysInMonth (f.year + 20) f.month) = _
  by_cases h2 : f.month = 2
  · rw [h2] at hd2 ⊢
    rw [daysInMonth_two] at hd2 ⊢
    have h29 : f.day ≤ 29 := by split_ifs at hd2 <;> omega
    cases hl : is_leap_year (f.year + 20)
    · norm_num
      split_ifs <;> omega
    · norm_num
      omega
  · rw [daysInMonth_ne_two (f.year + 20) f.year f.month h2]
    rw [if_neg (fun hc => h2 hc.1)]
    exact min_eq_left hd2

/-- C1 witness: a Feb-29 filing in 2080; 2100 is not a leap year, so the
baseline clamps to Feb 28, 2100. -/
theorem utility_baseline_is_twenty_calendar_years_witness :
    (calculateExpiryD ⟨2080, 2, 29⟩ 0 0 none
      (midnight ⟨2024, 1, 1⟩)).baseline_expiry.day = 28 := by
  have h := utility_baseline_is_twenty_calendar_years ⟨2080, 2, 29⟩
    (by decide) (midnight ⟨2024, 1, 1⟩)
  rw [h.2.2.2.2]
  decide

/-- C5: with no terminal-disclaimer date, the reason string is exactly
`"20 years from filing"` with `" + {pta} days PTA"` appended iff `pta ≠ 0`
and `" + {pte} days PTE"` appended iff `pte ≠ 0`, the PTA clause always
before the PTE clause regardless of magnitudes. -/
theorem reason_string_shape (f : Date) (pta pte : Nat) (now : Instant) :
    (calculateExpiryD f pta pte none now).reason =
      "20 years from filing" ++
        (if pta ≠ 0 then " + " ++ toString pta ++ " days PTA" else "") ++
        (if pte ≠ 0 then " + " ++ toString pte ++ " days PTE" else "") := by
  by_cases h1 : pta = 0 <;> by_cases h2 : pte = 0 <;>
    simp only [calculateExpiryD, h1, h2, ne_eq, not_false_eq_true, if_true,
      if_false, not_true_eq_false, if_neg, String.append_assoc] <;>
    rfl

/-- C7: the inline `add_years_months` of the maintenance-fee scheduler and
the `relativedelta(years=y)` addition used by the two expiry calculators
implement the same clamped calendar arithmetic on pure year offsets. -/
theorem shared_clamp_rule (d : Date) (y : Int) (h1 : 1 ≤ d.month)
    (h2 : d.month ≤ 12) (_hy : 0 ≤ y) :
    add_years_months d y 0 = relativedeltaYears d y := by
  simp only [add_years_months, relativedeltaYears, add_zero]
  rw [show (d.month - 1) / 12 = 0 from by omega,
    show (d.month - 1) % 12 = d.month - 1 from by omega]
  simp only [add_zero, Int.sub_add_cancel]

/-- C7 witness: both primitives send Feb 29, 2016 plus 3 years to
Feb 28, 2019. -/
theorem shared_clamp_rule_witness :
    add_years_months ⟨2016, 2, 29⟩ 3 0 = relativedeltaYears ⟨2016, 2, 29⟩ 3 :=
  shared_clamp_rule ⟨2016, 2, 29⟩ 3 (by decide) (by decide) (by decide)

/-- C10: clamped month addition does not round trip.  For the grant date
2020-02-29 the 11.5-year due date is 2031-08-29, its window start clamps
to 2031-02-28 (a day smaller than the grant day), and adding 6 months back
gives 2031-08-28, not the due date.  For the day-31 grant 2020-08-31 the
11.5-year window start (2031-08-29, derived from the clamped due date
2032-02-29) differs from the grant shifted by the milestone minus 6 months
(2031-08-31). -/
theorem clamped_addition_not_roundtrip :
    (add_years_months
        (add_years_months (add_years_months ⟨2020, 2, 29⟩ 11 6) 0 (-6)) 0 6 ≠
      add_years_months ⟨2020, 2, 29⟩ 11 6) ∧
    (calculateMaintenanceFeesD ⟨2020, 2, 29⟩).year_11_5.window_start.day <
      (⟨2020, 2, 29⟩ : Date).day ∧
    (calculateMaintenanceFeesD ⟨2020, 8, 31⟩).year_11_5.window_start ≠
      add_years_months ⟨2020, 8, 31⟩ 11 0 := by
  decide

/-- C2: a terminal-disclaimer date strictly earlier than the adjusted
expiry (baseline + PTA + PTE days) replaces the expiry and the whole
reason string; one that is equal or later leaves the entire result exactly
as if no terminal-disclaimer date had been supplied. -/
theorem terminal_disclaimer_override (f td : Date) (pta pte : Nat)
    (now : Instant) :
    (Date.ltP td (addDays (relativedeltaYears f 20) (pta + pte)) →
      (calculateExpiryD f pta pte (some td) now).expiry = td ∧
      (calculateExpiryD f pta pte (some td) now).calculated_expiry = td ∧
      (calculateExpiryD f pta pte (some td) now).reason =
        "Terminal Disclaimer (expires with linked patent)") ∧
    (¬ Date.ltP td (addDays (relativedeltaYears f 20) (pta + pte)) →
      calculateExpiryD f pta pte (some td) now =
        calculateExpiryD f pta pte none now) := by
  constructor
  · intro h
    simp only [calculateExpiryD, if_pos h]
    exact ⟨by trivial, by trivial, by trivial⟩
  · intro h
    simp only [calculateExpiryD, if_neg h]

/-- C2 witness: filing 2000-01-01 with no adjustments has adjusted expiry
2020-01-01; the disclaimer date 2010-01-01 overrides date and reason,
while 2030-01-01 leaves the result identical to the no-disclaimer call. -/
theorem terminal_disclaimer_override_witness :
    ((calculateExpiryD ⟨2000, 1, 1⟩ 0 0 (some ⟨2010, 1, 1⟩)
        (midnight ⟨2024, 1, 1⟩)).expiry = ⟨2010, 1, 1⟩ ∧
      (calculateExpiryD ⟨2000, 1, 1⟩ 0 0 (some ⟨2010, 1, 1⟩)
        (midnight ⟨2024, 1, 1⟩)).calculated_expiry = ⟨2010, 1, 1⟩ ∧
      (calculateExpiryD ⟨2000, 1, 1⟩ 0 0 (some ⟨2010, 1, 1⟩)
        (midnight ⟨2024, 1, 1⟩)).reason =
          "Terminal Disclaimer (expires with linked patent)") ∧
    calculateExpiryD ⟨2000, 1, 1⟩ 0 0 (some ⟨2030, 1, 1⟩)
        (midnight ⟨2024, 1, 1⟩) =
      calculateExpiryD ⟨2000, 1, 1⟩ 0 0 none (midnight ⟨2024, 1, 1⟩) := by
  constructor
  · exact (terminal_disclaimer_override ⟨2000, 1, 1⟩ ⟨2010, 1, 1⟩ 0 0
      (midnight ⟨2024, 1, 1⟩)).1 (by decide)
  · exact (terminal_disclaimer_override ⟨2000, 1, 1⟩ ⟨2030, 1, 1⟩ 0 0
      (midnight ⟨2024, 1, 1⟩)).2 (by decide)

/-- The fee window emitted for a milestone `y` years and 6 months after a
base date satisfies the month-index/clamp characterization. -/
theorem fee_schedule_window_spec (base : Date) (y : Int) :
    FeeWindowSpec base (12 * y + 6)
      (fee_schedule (add_years_months base y 6)) := by
  unfold FeeWindowSpec fee_schedule
  dsimp only
  obtain ⟨a1, a2, a3, a4⟩ := add_years_months_spec base y 6
  obtain ⟨b1, b2, b3, b4⟩ :=
    add_years_months_spec (add_years_months base y 6) 0 (-6)
  obtain ⟨c1, c2, c3, c4⟩ :=
    add_years_months_spec (add_years_months base y 6) 0 6
  refine ⟨by omega, a2, a3, a4, rfl, by omega, b2, b3, b4, by omega, c2, c3, c4⟩

/-- C3: `calculate_maintenance_fees` returns exactly the three windows at
grant + 3y6m, grant + 7y6m, grant + 11y6m under clamped calendar
addition, each with `window_start` six calendar months before the due
date (borrowing a year on month underflow), `window_end` equal to the due
date, and `surcharge_end` six calendar months after it, every produced
day clamped to its target month. -/
theorem maintenance_fee_schedule (g : Date) (_hv : g.Valid) :
    FeeWindowSpec g 42 (calculateMaintenanceFeesD g).year_3_5 ∧
    FeeWindowSpec g 90 (calculateMaintenanceFeesD g).year_7_5 ∧
    FeeWindowSpec g 138 (calculateMaintenanceFeesD g).year_11_5 := by
  refine ⟨?_, ?_, ?_⟩
  · have h := fee_schedule_window_spec g 3
    norm_num at h
    exact h
  · have h := fee_schedule_window_spec g 7
    norm_num at h
    exact h
  · have h := fee_schedule_window_spec g 11
    norm_num at h
    exact h

/-- C3 witness: the schedule for the grant date 2020-01-31 (whose
3.5-year due date is 2023-07-31). -/
theorem maintenance_fee_schedule_witness :
    FeeWindowSpec ⟨2020, 1, 31⟩ 42
      (calculateMaintenanceFeesD ⟨2020, 1, 31⟩).year_3_5 ∧
    FeeWindowSpec ⟨2020, 1, 31⟩ 90
      (calculateMaintenanceFeesD ⟨2020, 1, 31⟩).year_7_5 ∧
    FeeWindowSpec ⟨2020, 1, 31⟩ 138
      (calculateMaintenanceFeesD ⟨2020, 1, 31⟩).year_11_5 :=
  maintenance_fee_schedule ⟨2020, 1, 31⟩ (by decide)

/-- C4: the design-patent calculator selects a 15-year term from grant
when the filing date is on or after 2015-05-13 (inclusive boundary) and a
14-year term otherwise, comparing the cutoff against the filing date for
every grant date, and always returns `pta_days = 0` and `pte_days = 0`. -/
theorem design_patent_cutoff (grant filing : Date) (_hg : grant.Valid)
    (_hf : filing.Valid) (now : Instant) :
    (calculateDesignExpiryD grant filing now).pta_days = 0 ∧
    (calculateDesignExpiryD grant filing now).pte_days = 0 ∧
    (calculateDesignExpiryD grant filing now).calculated_expiry =
      (calculateDesignExpiryD grant filing now).baseline_expiry ∧
    (Date.geP filing cutoffDate →
      (calculateDesignExpiryD grant filing now).baseline_expiry =
        relativedeltaYears grant 15 ∧
      (calculateDesignExpiryD grant filing now).reason =
        "15 years from grant date") ∧
    (¬ Date.geP filing cutoffDate →
      (calculateDesignExpiryD grant filing now).baseline_expiry =
        relativedeltaYears grant 14 ∧
      (calculateDesignExpiryD grant filing now).reason =
        "14 years from grant date") ∧
    (calculateDesignExpiryD grant ⟨2015, 5, 13⟩ now).reason =
      "15 years from grant date" ∧
    (calculateDesignExpiryD grant ⟨2015, 5, 12⟩ now).reason =
      "14 years from grant date" := by
  have h15 : ∀ g fi : Date, Date.geP fi cutoffDate →
      (calculateDesignExpiryD g fi now).baseline_expiry =
        relativedeltaYears g 15 ∧
      (calculateDesignExpiryD g fi now).reason =
        "15 years from grant date" := by
    intro g fi h
    simp only [calculateDesignExpiryD, if_pos h]
    exact ⟨trivial, by decide⟩
  have h14 : ∀ g fi : Date, ¬ Date.geP fi cutoffDate →
      (calculateDesignExpiryD g fi now).baseline_expiry =
        relativedeltaYears g 14 ∧
      (calculateDesignExpiryD g fi now).reason =
        "14 years from grant date" := by
    intro g fi h
    simp only [calculateDesignExpiryD, if_neg h]
    exact ⟨trivial, by decide⟩
  exact ⟨rfl, rfl, rfl, h15 grant filing, h14 grant filing,
    (h15 grant ⟨2015, 5, 13⟩ (by decide)).2,
    (h14 grant ⟨2015, 5, 12⟩ (by decide)).2⟩

/-- C4 witness: at the grant date 2010-06-21 the two implications are
discharged on either side of the boundary. -/
theorem design_patent_cutoff_witness :
    (calculateDesignExpiryD ⟨2010, 6, 21⟩ ⟨2015, 5, 13⟩
      (midnight ⟨2024, 1, 1⟩)).baseline_expiry =
        relativedeltaYears ⟨2010, 6, 21⟩ 15 ∧
    (calculateDesignExpiryD ⟨2010, 6, 21⟩ ⟨2015, 5, 12⟩
      (midnight ⟨2024, 1, 1⟩)).reason = "14 years from grant date" := by
  have h := design_patent_cutoff ⟨2010, 6, 21⟩ ⟨2015, 5, 13⟩ (by decide)
    (by decide) (midnight ⟨2024, 1, 1⟩)
  exact ⟨(h.2.2.2.1 (by decide)).1, h.2.2.2.2.2.2⟩

/-- `is_active` is literally the strict comparison of the evaluation
instant against midnight of the calculated expiry. -/
theorem calculateExpiryD_is_active (f : Date) (pta pte : Nat)
    (td : Option Date) (now : Instant) :
    (calculateExpiryD f pta pte td now).is_active =
      decide (Instant.ltP now
        (midnight (calculateExpiryD f pta pte td now).calculated_expiry)) := rfl

/-- Same for the design-patent calculator. -/
theorem calculateDesignExpiryD_is_active (grant filing : Date)
    (now : Instant) :
    (calculateDesignExpiryD grant filing now).is_active =
      decide (Instant.ltP now
        (midnight
          (calculateDesignExpiryD grant filing now).calculated_expiry)) :=
  rfl

/-- C6: for both expiry calculators, `is_active` is true iff `now` is
strictly before midnight of the calculated expiry; in particular, at
exactly midnight of the calculated expiry the patent is reported
inactive. -/
theorem is_active_strictly_before (f : Date) (pta pte : Nat)
    (td : Option Date) (g fd : Date) (now : Instant) :
    ((calculateExpiryD f pta pte td now).is_active = true ↔
      Instant.ltP now
        (midnight (calculateExpiryD f pta pte td now).calculated_expiry)) ∧
    (calculateExpiryD f pta pte td
      (midnight
        (calculateExpiryD f pta pte td now).calculated_expiry)).is_active
          = false ∧
    ((calculateDesignExpiryD g fd now).is_active = true ↔
      Instant.ltP now
        (midnight (calculateDesignExpiryD g fd now).calculated_expiry)) ∧
    (calculateDesignExpiryD g fd
      (midnight
        (calculateDesignExpiryD g fd now).calculated_expiry)).is_active
          = false := by
  refine ⟨?_, ?_, ?_, ?_⟩
  · rw [calculateExpiryD_is_active]
    exact decide_eq_true_iff
  · rw [calculateExpiryD_is_active]
    exact decide_eq_false (Instant.ltP_irrefl _)
  · rw [calculateDesignExpiryD_is_active]
    exact decide_eq_true_iff
  · rw [calculateDesignExpiryD_is_active]
    exact decide_eq_false (Instant.ltP_irrefl _)

/-- C9: both expiry calculators are pure functions of their inputs; two
invocations at different instants agree on every field except possibly
`is_active`, and `is_active` can only flip from true to false as the
instant advances past the calculated expiry. -/
theorem clock_affects_only_is_active (f : Date) (pta pte : Nat)
    (td : Option Date) (g fd : Date) (n1 n2 : Instant) :
    coreFields (calculateExpiryD f pta pte td n1) =
      coreFields (calculateExpiryD f pta pte td n2) ∧
    coreFields (calculateDesignExpiryD g fd n1) =
      coreFields (calculateDesignExpiryD g fd n2) ∧
    (Instant.leP n1 n2 →
      (calculateExpiryD f pta pte td n2).is_active = true →
      (calculateExpiryD f pta pte td n1).is_active = true) ∧
    (Instant.leP n1 n2 →
      (calculateDesignExpiryD g fd n2).is_active = true →
      (calculateDesignExpiryD g fd n1).is_active = true) := by
  refine ⟨rfl, rfl, ?_, ?_⟩
  · intro hle h2
    rw [calculateExpiryD_is_active, decide_eq_true_iff] at h2 ⊢
    exact Instant.ltP_of_leP_of_ltP hle h2
  · intro hle h2
    rw [calculateDesignExpiryD_is_active, decide_eq_true_iff] at h2 ⊢
    exact Instant.ltP_of_leP_of_ltP hle h2

/-- C9 witness: for the filing date 2000-01-01 (expiry 2020-01-01) and
the design grant 2010-06-21 filed 2016-01-05 (expiry 2025-06-21), the
earlier of two instants also sees the patent active. -/
theorem clock_affects_only_is_active_witness :
    (calculateExpiryD ⟨2000, 1, 1⟩ 0 0 none
      (midnight ⟨2005, 1, 1⟩)).is_active = true ∧
    (calculateDesignExpiryD ⟨2010, 6, 21⟩ ⟨2016, 1, 5⟩
      (midnight ⟨2005, 1, 1⟩)).is_active = true := by
  have h := clock_affects_only_is_active ⟨2000, 1, 1⟩ 0 0 none
    ⟨2010, 6, 21⟩ ⟨2016, 1, 5⟩ (midnight ⟨2005, 1, 1⟩) (midnight ⟨2010, 1, 1⟩)
  exact ⟨h.2.2.1 (by decide) (by decide), h.2.2.2 (by decide) (by decide)⟩

/-- `calculate_expiry` fails exactly when the filing string does not
parse, when the computed expiry would leave the `datetime` year range, or
when a non-empty terminal-disclaimer string is supplied that does not
parse. -/
theorem calculate_expiry_none_iff (fs : String) (pta pte : Nat)
    (tdo : Option String) (now : Instant) :
    calculate_expiry fs pta pte tdo now = none ↔
      strptimeYMD fs = none ∨
      (∃ fdate, strptimeYMD fs = some fdate ∧
        9999 < (addDays (relativedeltaYears fdate 20) (pta + pte)).year) ∨
      (∃ ts, tdo = some ts ∧ ts.isEmpty = false ∧ strptimeYMD ts = none) := by
  cases hf : strptimeYMD fs with
  | none => simp [calculate_expiry, hf]
  | some fdate =>
    simp only [calculate_expiry, hf]
    split_ifs with hb ha
    · have hadj : 9999 <
          (addDays (relativedeltaYears fdate 20) (pta + pte)).year :=
        lt_of_lt_of_le hb (addDays_year_mono _ _)
      simp [hadj]
    · simp [ha]
    · cases tdo with
      | none => simp [ha]
      | some ts =>
        cases he : ts.isEmpty with
        | true => simp [he, ha]
        | false =>
          cases ht : strptimeYMD ts with
          | none => simp [he, ht]
          | some td => simp [he, ht, ha]

/-- `calculate_design_patent_expiry` fails exactly when either date string
does not parse or when the computed expiry would leave the `datetime` year
range. -/
theorem calculate_design_none_iff (gs ds : String) (now : Instant) :
    calculate_design_patent_expiry gs ds now = none ↔
      strptimeYMD gs = none ∨ strptimeYMD ds = none ∨
      (∃ g fdate, strptimeYMD gs = some g ∧ strptimeYMD ds = some fdate ∧
        9999 < g.year + (if Date.geP fdate cutoffDate then 15 else 14)) := by
  cases hg : strptimeYMD gs with
  | none => simp [calculate_design_patent_expiry, hg]
  | some g =>
    cases hd : strptimeYMD ds with
    | none => simp [calculate_design_patent_expiry, hg, hd]
    | some fdate =>
      simp only [calculate_design_patent_expiry, hg, hd]
      by_cases hc : Date.geP fdate cutoffDate
      · simp only [if_pos hc, relativedeltaYears]
        split_ifs with h
        · simp [hc, h]
        · simp [hc, h]
      · simp only [if_neg hc, relativedeltaYears]
        split_ifs with h
        · simp [hc, h]
        · simp [hc, h]

/-- `calculate_maintenance_fees` fails exactly when the grant string does
not parse or when the 11.5-year surcharge end would leave the `datetime`
year range. -/
theorem calculate_maintenance_none_iff (gs : String) :
    calculate_maintenance_fees gs = none ↔
      strptimeYMD gs = none ∨
      (∃ g, strptimeYMD gs = some g ∧
        9999 < (add_years_months (add_years_months g 11 6) 0 6).year) := by
  cases hg : strptimeYMD gs with
  | none => simp [calculate_maintenance_fees, hg]
  | some g =>
    simp only [calculate_maintenance_fees, hg]
    split_ifs with h <;> simp [h]

/-- C8 (amended): each calculator fails exactly when a supplied date
string is unparseable by `strptime`'s `%Y-%m-%d` format or when a
computed date would leave the `datetime` year range, succeeds otherwise,
and whether it fails does not depend on the evaluation instant. -/
theorem parse_failure_characterization (fs : String) (pta pte : Nat)
    (tdo : Option String) (gs ds ms : String) (n1 n2 : Instant) :
    (calculate_expiry fs pta pte tdo n1 = none ↔
      strptimeYMD fs = none ∨
      (∃ fdate, strptimeYMD fs = some fdate ∧
        9999 < (addDays (relativedeltaYears fdate 20) (pta + pte)).year) ∨
      (∃ ts, tdo = some ts ∧ ts.isEmpty = false ∧ strptimeYMD ts = none)) ∧
    (calculate_design_patent_expiry gs ds n1 = none ↔
      strptimeYMD gs = none ∨ strptimeYMD ds = none ∨
      (∃ g fdate, strptimeYMD gs = some g ∧ strptimeYMD ds = some fdate ∧
        9999 < g.year + (if Date.geP fdate cutoffDate then 15 else 14))) ∧
    (calculate_maintenance_fees ms = none ↔
      strptimeYMD ms = none ∨
      (∃ g, strptimeYMD ms = some g ∧
        9999 < (add_years_months (add_years_months g 11 6) 0 6).year)) ∧
    (calculate_expiry fs pta pte tdo n1 = none ↔
      calculate_expiry fs pta pte tdo n2 = none) := by
  refine ⟨calculate_expiry_none_iff fs pta pte tdo n1,
    calculate_design_none_iff gs ds n1,
    calculate_maintenance_none_iff ms, ?_⟩
  rw [calculate_expiry_none_iff, calculate_expiry_none_iff]

/-- C8 counterexample: the 8-character string `"2020-1-5"` is not a
YYYY-MM-DD date (those have 10 characters), yet `strptime` silently
accepts it as 2020-01-05 and `calculate_expiry` succeeds on it; and the
perfectly valid date string `"9980-01-01"` parses, yet `calculate_expiry`
fails on it because the 20-year term would overflow the year 9999. -/
theorem parse_failure_counterexample :
    calculate_expiry "2020-1-5" 0 0 none (midnight ⟨2024, 1, 1⟩) ≠ none ∧
    ("2020-1-5" : String).length ≠ 10 ∧
    strptimeYMD "2020-1-5" = some ⟨2020, 1, 5⟩ ∧
    strptimeYMD "9980-01-01" = some ⟨9980, 1, 1⟩ ∧
    calculate_expiry "9980-01-01" 0 0 none (midnight ⟨2024, 1, 1⟩) = none := by
  refine ⟨by decide, by decide, by decide, by decide, by decide⟩

end PatentSentry
